import Mathlib

/-!
Verification development for the unlimy order-to-provisioning coordinator.

The definitions below are a shallow embedding of the Python sources:

* `app/services/catalog.py`   — plan-code building and parsing,
* `app/db/repository.py`      — repository operations as pure state transformers
                                over an explicit `DB` value,
* `app/handlers/start.py`     — the order coordinator (`_complete_paid_order`,
                                `_start_config_build`, `_poll_master_task`,
                                `finish_payment_simulation`,
                                `check_cryptobot_payment`),
* `app/services/provisioning.py` — slave-node selection for the legacy job path.

Conventions: Python `str` is modelled as `String` (with `List Char` cores where
splitting and integer formatting must be reasoned about), Python `int` as `Int`
(row ids as `Nat`), `None`-able values as `Option`, raised client exceptions as
`Option`/`none` at the call boundary, and wall-clock values (`NOW()`,
expiration timestamps) as opaque `String` parameters threaded through.
-/

/-! ## Python string and integer primitives -/

/-- Python `str.split(sep)` with a single-character separator and no maxsplit:
`"".split(":") = [""]`, `"a::b".split(":") = ["a", "", "b"]`. -/
def pySplit (sep : Char) : List Char → List (List Char)
  | [] => [[]]
  | c :: rest =>
    if c == sep then [] :: pySplit sep rest
    else
      match pySplit sep rest with
      | [] => [[c]]
      | h :: t => (c :: h) :: t

/-- Decimal digits, most significant first, with explicit fuel (structural
recursion, so the definition computes by kernel reduction; the fuel is never
exhausted when `n ≤ fuel`). -/
def natToCharsFuel : Nat → Nat → List Char
  | 0, n => [Nat.digitChar n]
  | fuel + 1, n =>
    if n < 10 then [Nat.digitChar n]
    else natToCharsFuel fuel (n / 10) ++ [Nat.digitChar (n % 10)]

/-- Decimal digits of a natural number, most significant first, as produced by
Python `str(int)` for non-negative values. -/
def natToChars (n : Nat) : List Char := natToCharsFuel n n

/-- Python `str(int)`: optional leading minus sign followed by decimal digits. -/
def pyIntToChars (i : Int) : List Char :=
  if i < 0 then '-' :: natToChars i.natAbs else natToChars i.toNat

/-- Python `str(int)` at the `String` level. -/
def pyIntToString (i : Int) : String := String.mk (pyIntToChars i)

/-- Value of a digit string (most significant digit first). -/
def digitsToNat (cs : List Char) : Nat :=
  cs.foldl (fun a c => a * 10 + (c.toNat - 48)) 0

/-- All-digit check and value, `none` on the empty list or a non-digit. -/
def pyParseDigits (cs : List Char) : Option Nat :=
  if !cs.isEmpty && cs.all Char.isDigit then some (digitsToNat cs) else none

/-- Python `str.lower()` (ASCII case mapping; every status string compared by
the handlers is ASCII). -/
def pyLower (s : String) : String := String.mk (s.data.map Char.toLower)

/-- Python `int(str)` restricted to the forms arising in this repository:
an optional sign followed by decimal digits (surrounding whitespace and
underscore separators, which Python also accepts, never occur here). -/
def pyParseInt (cs : List Char) : Option Int :=
  match cs with
  | [] => none
  | c :: rest =>
    if c == '-' then
      match pyParseDigits rest with
      | some n => some (-(n : Int))
      | none => none
    else if c == '+' then
      match pyParseDigits rest with
      | some n => some ((n : Int))
      | none => none
    else
      match pyParseDigits (c :: rest) with
      | some n => some ((n : Int))
      | none => none

/-! ## Catalog (`app/services/catalog.py`) -/

/-- `ReadyTariffOption` from `catalog.py`; the `Decimal` USD price is held in
cents (all catalog prices have exactly two decimal places). -/
structure ReadyTariffOption where
  plan_code : String
  months : Int
  usd_cents : Int
  rub : Int
  stars : Int
  devices : Int
  speed : String
  traffic : String
  priority : String
  short_features : String
deriving DecidableEq, Repr

/-- The `READY_OPTIONS` dict from `catalog.py`, keyed by `(plan_code, months)`. -/
def READY_OPTIONS : List ((String × Int) × ReadyTariffOption) :=
  [ (("entry", 1), ⟨"entry", 1, 300, 231, 200, 1, "До 30 Mbps", "300 GB", "Стандартный", "1 устройство • 300 GB • Оптимальная скорость"⟩),
    (("entry", 3), ⟨"entry", 3, 800, 616, 533, 1, "До 30 Mbps", "300 GB", "Стандартный", "1 устройство • 300 GB • Оптимальная скорость"⟩),
    (("entry", 12), ⟨"entry", 12, 2500, 1925, 1667, 1, "До 30 Mbps", "300 GB", "Стандартный", "1 устройство • 300 GB • Оптимальная скорость"⟩),
    (("standard", 1), ⟨"standard", 1, 599, 461, 399, 3, "До 100 Mbps", "Безлимит", "Средний", "3 устройства • Безлимит • До 100 Mbps"⟩),
    (("standard", 3), ⟨"standard", 3, 1599, 1231, 1066, 3, "До 100 Mbps", "Безлимит", "Средний", "3 устройства • Безлимит • До 100 Mbps"⟩),
    (("standard", 12), ⟨"standard", 12, 5999, 4619, 4000, 3, "До 100 Mbps", "Безлимит", "Средний", "3 устройства • Безлимит • До 100 Mbps"⟩),
    (("premium", 1), ⟨"premium", 1, 899, 692, 599, 5, "Без ограничения скорости", "Безлимит", "Высокий", "5 устройств • Максимальная скорость • Приоритет"⟩),
    (("premium", 3), ⟨"premium", 3, 2399, 1847, 1600, 5, "Без ограничения скорости", "Безлимит", "Высокий", "5 устройств • Максимальная скорость • Приоритет"⟩),
    (("premium", 12), ⟨"premium", 12, 8999, 6929, 6000, 5, "Без ограничения скорости", "Безлимит", "Высокий", "5 устройств • Максимальная скорость • Приоритет"⟩),
    (("family", 1), ⟨"family", 1, 1299, 1000, 866, 10, "Безлимит", "Безлимит", "Выше Standard", "10 устройств • Безлимит • Для семьи"⟩),
    (("family", 12), ⟨"family", 12, 11999, 9239, 8000, 10, "Безлимит", "Безлимит", "Выше Standard", "10 устройств • Безлимит • Для семьи"⟩),
    (("business_start", 1), ⟨"business_start", 1, 2999, 2309, 1999, 5, "Бизнес-профиль", "По лимитам профиля", "Бизнес", "5 пользователей • Админ-панель • Статистика"⟩) ]

/-- `get_ready_option` from `catalog.py`: dict lookup by `(plan_code, months)`. -/
def get_ready_option (p : String) (m : Int) : Option ReadyTariffOption :=
  (READY_OPTIONS.find? (fun e => e.1.1 == p && e.1.2 == m)).map (fun e => e.2)

/-- Core of `build_ready_plan_code`: the f-string `f"ready:{plan_code}:{months}"`. -/
def build_ready_core (p : List Char) (m : Int) : List Char :=
  "ready:".data ++ p ++ ':' :: pyIntToChars m

/-- `build_ready_plan_code` from `catalog.py`. -/
def build_ready_plan_code (p : String) (m : Int) : String :=
  String.mk (build_ready_core p.data m)

/-- Core of `parse_ready_plan_code`: prefix check, split on `:`, exactly three
parts, integer months, then table lookup. -/
def parse_ready_core (l : List Char) : Option ReadyTariffOption :=
  if List.isPrefixOf "ready:".data l then
    match pySplit ':' l with
    | [_p0, p1, p2] =>
      match pyParseInt p2 with
      | some m => get_ready_option (String.mk p1) m
      | none => none
    | _ => none
  else none

/-- `parse_ready_plan_code` from `catalog.py`. -/
def parse_ready_plan_code (s : String) : Option ReadyTariffOption :=
  parse_ready_core s.data

/-- Core of `build_custom_plan_code`:
the f-string `f"custom:{server}:{protocol}:{months}:{devices}"`. -/
def build_custom_core (s pr : List Char) (m d : Int) : List Char :=
  "custom:".data ++ s ++ ':' :: pr ++ ':' :: pyIntToChars m ++ ':' :: pyIntToChars d

/-- `build_custom_plan_code` from `catalog.py`. -/
def build_custom_plan_code (s pr : String) (m d : Int) : String :=
  String.mk (build_custom_core s.data pr.data m d)

/-- Core of `parse_custom_plan_code`: prefix check, split on `:`, exactly five
parts, integer months and devices. -/
def parse_custom_core (l : List Char) : Option (List Char × List Char × Int × Int) :=
  if List.isPrefixOf "custom:".data l then
    match pySplit ':' l with
    | [_p0, p1, p2, p3, p4] =>
      match pyParseInt p3, pyParseInt p4 with
      | some m, some d => some (p1, p2, m, d)
      | _, _ => none
    | _ => none
  else none

/-- `parse_custom_plan_code` from `catalog.py`. -/
def parse_custom_plan_code (s : String) : Option (String × String × Int × Int) :=
  (parse_custom_core s.data).map (fun q => (String.mk q.1, String.mk q.2.1, q.2.2.1, q.2.2.2))

/-! ## Repository rows (`app/db/repository.py`) -/

/-- A `vpn_orders` row (columns used by the coordinator; `amount_usd` in whole
dollars as the integer column). -/
structure OrderRow where
  id : Nat
  tg_id : Int
  plan : String
  server : String
  protocol : String
  payment_method : String
  amount_usd : Int
  status : String
  failure_reason : Option String
  paid_at : Option String
deriving DecidableEq, Repr

/-- A `draft_orders` row. -/
structure DraftRow where
  tg_id : Int
  plan : Option String
  server : Option String
  protocol : Option String
  payment : Option String
deriving DecidableEq, Repr

/-- A `payment_events` row (append-only audit log). -/
structure PaymentEvent where
  order_id : Nat
  tg_id : Int
  payment_method : String
  event_type : String
  details : Option String
deriving DecidableEq, Repr

/-- A `connections` row. -/
structure ConnectionRow where
  id : Nat
  tg_id : Int
  order_id : Option Nat
  server_id : String
  protocol : String
  create_date : String
  speed_limits : String
  devices_limits : String
  data_limits : String
  config_text : String
  expiration_date : String
  status : String
  task_id : Option String
deriving DecidableEq, Repr

/-- A `provisioning_jobs` row (`order_id` carries a UNIQUE constraint). -/
structure ProvisioningJobRow where
  id : Nat
  order_id : Nat
  tg_id : Int
  server : String
  protocol : String
  slave_node : String
  status : String
  config_stub : Option String
  notes : Option String
deriving DecidableEq, Repr

/-- The persistent store: each table as a list of rows (new rows are consed at
the head), with the sequence counters feeding `BIGSERIAL` ids. -/
structure DB where
  orders : List OrderRow
  drafts : List DraftRow
  payment_events : List PaymentEvent
  connections : List ConnectionRow
  provisioning_jobs : List ProvisioningJobRow
  next_connection_id : Nat
  next_job_id : Nat
deriving DecidableEq, Repr

/-- SQL `COALESCE(new, old)` on nullable text. -/
def coalesceField (new old : Option String) : Option String :=
  match new with
  | some v => some v
  | none => old

/-- asyncpg reports `UPDATE n`; `result.endswith("1")` holds exactly when the
decimal representation of the matched-row count ends in 1. -/
def endswithOne (n : Nat) : Bool := n % 10 == 1

/-- Row predicate of `WHERE id = $1 AND tg_id = $2` on `vpn_orders`. -/
def orderKey (order_id : Nat) (tg : Int) (o : OrderRow) : Bool :=
  o.id == order_id && o.tg_id == tg

/-- `Repository.update_order_status`: unconditional status/failure-reason
overwrite keyed by id+owner; `paid_at` is stamped when the new status is
`'paid'`. Returns whether the reported row count ends with "1". -/
def update_order_status (db : DB) (order_id : Nat) (tg : Int) (status : String)
    (failure_reason : Option String) (now : String) : DB × Bool :=
  let matched := db.orders.countP (orderKey order_id tg)
  let orders := db.orders.map (fun o =>
    if orderKey order_id tg o then
      { o with
        status := status
        failure_reason := failure_reason
        paid_at := if status == "paid" then some now else o.paid_at }
    else o)
  ({ db with orders := orders }, endswithOne matched)

/-- `Repository.get_order`. -/
def get_order (db : DB) (order_id : Nat) (tg : Int) : Option OrderRow :=
  db.orders.find? (orderKey order_id tg)

/-- `Repository.log_payment_event`: append-only insert. -/
def log_payment_event (db : DB) (order_id : Nat) (tg : Int)
    (payment_method event_type : String) (details : Option String) : DB :=
  { db with payment_events :=
      db.payment_events ++ [⟨order_id, tg, payment_method, event_type, details⟩] }

/-- Row predicate of `WHERE tg_id = $1` on `draft_orders`. -/
def draftKey (tg : Int) (d : DraftRow) : Bool := d.tg_id == tg

/-- `Repository.upsert_draft`: insert, or on conflict coalesce each field with
the previously stored value. -/
def upsert_draft (db : DB) (tg : Int)
    (plan server protocol payment : Option String) : DB :=
  if db.drafts.any (draftKey tg) then
    { db with drafts := db.drafts.map (fun d =>
        if draftKey tg d then
          { d with
            plan := coalesceField plan d.plan
            server := coalesceField server d.server
            protocol := coalesceField protocol d.protocol
            payment := coalesceField payment d.payment }
        else d) }
  else
    { db with drafts := ⟨tg, plan, server, protocol, payment⟩ :: db.drafts }

/-- `Repository.get_draft`: missing row reads as the all-`NULL` draft. -/
def get_draft (db : DB) (tg : Int) : DraftRow :=
  match db.drafts.find? (draftKey tg) with
  | some d => d
  | none => ⟨tg, none, none, none, none⟩

/-- `Repository.reset_draft`: `DELETE FROM draft_orders WHERE tg_id = $1`. -/
def reset_draft (db : DB) (tg : Int) : DB :=
  { db with drafts := db.drafts.filter (fun d => !draftKey tg d) }

/-- `Repository.create_connection`: insert with a fresh serial id; the caller
supplies the status (default `'pending'` at every call site in scope). -/
def create_connection (db : DB) (tg : Int) (server_id protocol : String)
    (speed_limits devices_limits data_limits expiration_date : String)
    (status : String) (task_id : Option String) (order_id : Option Nat)
    (now : String) : DB × Nat :=
  let id := db.next_connection_id
  let row : ConnectionRow :=
    ⟨id, tg, order_id, server_id, protocol, now, speed_limits, devices_limits,
      data_limits, "", expiration_date, status, task_id⟩
  ({ db with
      connections := row :: db.connections
      next_connection_id := id + 1 }, id)

/-- Row predicate of `WHERE id = $1 AND tg_id = $2` on `connections`. -/
def connKey (connection_id : Nat) (tg : Int) (c : ConnectionRow) : Bool :=
  c.id == connection_id && c.tg_id == tg

/-- `Repository.update_connection_task`: status overwrite keyed by id+owner;
task id and config text are `COALESCE`d with the stored values. -/
def update_connection_task (db : DB) (connection_id : Nat) (tg : Int)
    (status : String) (task_id : Option String) (config_text : Option String) :
    DB × Bool :=
  let matched := db.connections.countP (connKey connection_id tg)
  let connections := db.connections.map (fun c =>
    if connKey connection_id tg c then
      { c with
        status := status
        task_id := match task_id with
          | some t => some t
          | none => c.task_id
        config_text := match config_text with
          | some t => t
          | none => c.config_text }
    else c)
  ({ db with connections := connections }, endswithOne matched)

/-- `Repository.get_connection`. -/
def get_connection (db : DB) (connection_id : Nat) (tg : Int) :
    Option ConnectionRow :=
  db.connections.find? (connKey connection_id tg)

/-- Row predicate of the UNIQUE `order_id` key on `provisioning_jobs`. -/
def jobKey (order_id : Nat) (j : ProvisioningJobRow) : Bool :=
  j.order_id == order_id

/-- `Repository.create_or_get_provisioning_job`: `INSERT ... ON CONFLICT
(order_id) DO NOTHING` (with `config_stub` left `NULL`), then read back the row
for the order id. -/
def create_or_get_provisioning_job (db : DB) (order_id : Nat) (tg : Int)
    (server protocol slave_node status : String) (notes : Option String) :
    DB × Option ProvisioningJobRow :=
  let db1 :=
    if db.provisioning_jobs.any (jobKey order_id) then db
    else
      { db with
        provisioning_jobs :=
          ⟨db.next_job_id, order_id, tg, server, protocol, slave_node, status,
            none, notes⟩ :: db.provisioning_jobs
        next_job_id := db.next_job_id + 1 }
  (db1, db1.provisioning_jobs.find? (jobKey order_id))

/-- `ProvisioningService._pick_slave_node`. -/
def pick_slave_node (server : String) : String :=
  if server == "de" then "slave-de-01"
  else if server == "fi" then "slave-fi-01"
  else if server == "no" then "slave-no-01"
  else if server == "nl" then "slave-nl-01"
  else "slave-generic-01"

/-- `ProvisioningService.enqueue_after_payment`: create-or-get the job for the
order with the picked slave node and status `'queued'`. -/
def enqueue_after_payment (db : DB) (order : OrderRow) :
    DB × Option ProvisioningJobRow :=
  create_or_get_provisioning_job db order.id order.tg_id order.server
    order.protocol (pick_slave_node order.server) "queued"
    (some "stub_master_to_slave_dispatch")

/-! ## Order coordinator (`app/handlers/start.py`) -/

/-- A user-facing notification produced through `replace_bot_message`: either a
localized text looked up by `tr(lang, key)` or raw text (the delivered config). -/
inductive OutMsg
  | key (k : String)
  | raw (text : String)
deriving DecidableEq, Repr

/-- The `Offer` dataclass fields the coordinator feeds into provisioning
(pricing fields `usd`/`rub`/`stars`/`title` are computed but never consumed by
the provisioning path, so they are not carried here). -/
structure OfferR where
  plan_code : String
  server : String
  protocol : String
  months : Int
  devices : Int
  speed_limits : String
  data_limits : String
deriving DecidableEq, Repr

/-- `_offer_from_plan`, restricted to the provisioning-relevant fields: a ready
plan yields server `"auto"`, protocol `"wireguard"` and the option's limits; a
custom plan carries its own server/protocol and `"custom"` limits; anything
else is `None`. -/
def offer_from_plan (plan : String) : Option OfferR :=
  match parse_ready_plan_code plan with
  | some ready =>
    some ⟨plan, "auto", "wireguard", ready.months, ready.devices, ready.speed,
      ready.traffic⟩
  | none =>
    match parse_custom_plan_code plan with
    | some (server, protocol, months, devices) =>
      some ⟨plan, server, protocol, months, devices, "custom", "custom"⟩
    | none => none

/-- `TaskStatus` from `app/services/master_node.py`. -/
structure TaskStatusR where
  task_id : String
  status : String
  message : String
  config_text : Option String
deriving DecidableEq, Repr

/-- One poll attempt's result after the handler's `try/except MasterNodeError`:
`none` models a raised `MasterNodeError` (status set to `None`). -/
def PollResponse : Type := Option TaskStatusR

/-- Python truthiness of `status.config_text` (an `Optional[str]`). -/
def configTruthy : Option TaskStatusR → Bool
  | some st =>
    match st.config_text with
    | some c => !(c == "")
    | none => false
  | none => false

/-- `status and status.status in {"done", "ready", "success"} and
status.config_text` from `_poll_master_task`. -/
def respSuccess (r : Option TaskStatusR) : Bool :=
  match r with
  | some st => (st.status == "done" || st.status == "ready" || st.status == "success") && configTruthy (some st)
  | none => false

/-- `status and status.status in {"failed", "error"}` from `_poll_master_task`. -/
def respFailed (r : Option TaskStatusR) : Bool :=
  match r with
  | some st => st.status == "failed" || st.status == "error"
  | none => false

/-- The configuration text delivered by a successful response (defined whenever
`respSuccess` holds). -/
def respConfig (r : Option TaskStatusR) : String :=
  match r with
  | some st =>
    match st.config_text with
    | some c => c
    | none => ""
  | none => ""

/-- How a `_poll_master_task` run ended. -/
inductive PollOutcome
  | active (config : String)
  | failed
  | timeout
deriving DecidableEq, Repr

/-- Observable result of a `_poll_master_task` run: final store, outcome,
number of `get_task_status` attempts performed, the sleep durations executed
(in seconds, in order), and the user notifications sent. -/
structure PollResult where
  db : DB
  outcome : PollOutcome
  attempts_used : Nat
  sleeps : List Int
  msgs : List OutMsg
deriving Repr

/-- Body of the `for attempt in range(1, 41)` loop of `_poll_master_task`,
recursing over the list of remaining attempt numbers. `responses` maps an
attempt number to that attempt's `get_task_status` result (`none` for a raised
`MasterNodeError`). -/
def poll_master_task_go (responses : Nat → Option TaskStatusR) (interval : Int)
    (tg : Int) (connection_id : Nat) (task_id : String) (db : DB) (used : Nat)
    (sleeps : List Int) : List Nat → PollResult
  | [] => ⟨db, .timeout, used, sleeps, [.key "config_timeout"]⟩
  | a :: rest =>
    let r := responses a
    if respSuccess r then
      let cfg := respConfig r
      let upd := update_connection_task db connection_id tg "active"
        (some task_id) (some cfg)
      ⟨upd.1, .active cfg, used + 1, sleeps, [.raw cfg]⟩
    else if respFailed r then
      let upd := update_connection_task db connection_id tg "failed"
        (some task_id) none
      ⟨upd.1, .failed, used + 1, sleeps, [.key "config_failed"]⟩
    else
      poll_master_task_go responses interval tg connection_id task_id db
        (used + 1) (sleeps ++ [max 5 interval]) rest

/-- `_poll_master_task`: up to 40 attempts (`range(1, 41)`), sleeping
`max(5, poll_interval_sec)` after each non-terminal attempt; timeout notifies
the user without any further connection write. -/
def poll_master_task (responses : Nat → Option TaskStatusR) (interval : Int)
    (tg : Int) (connection_id : Nat) (task_id : String) (db : DB) : PollResult :=
  poll_master_task_go responses interval tg connection_id task_id db 0 []
    (List.range' 1 40)

/-- The `POST /configs/create` payload built by `_start_config_build`. -/
structure CreatePayload where
  order_id : Nat
  connection_id : Nat
  tg_id : Int
  plan : String
  server_id : String
  protocol : String
deriving DecidableEq, Repr

/-- Observable result of `_start_config_build`: final store, the id of the
Connection row it inserted, the dispatched payload, whether a poll task was
scheduled (and for which task id), the notifications sent, and the number of
`create_config` requests issued (structurally always exactly one). -/
structure BuildResult where
  db : DB
  connection_id : Nat
  payload : CreatePayload
  pollScheduled : Bool
  scheduled_task : Option String
  msgs : List OutMsg
  create_calls : Nat
deriving Repr

/-- `_start_config_build` on the two code paths its `try/except MasterNodeError`
actually handles. `createResp` is the `create_config` call's result:
`some task_id` on success, `none` for a raised `MasterNodeError` (HTTP status
>= 400, malformed JSON body, API-level `ok: false`, or a missing task id —
the only conditions `MasterNodeClient._request`/`create_config` wrap). A raw
transport exception from `client.request` (httpx connect/timeout errors) is
**not** a `MasterNodeError` and escapes this handler's `except` clause; that
divergent path is modelled by `start_config_build_run` below with
`CreateOutcome.transportError`. `expiry` abstracts `_expiry_iso`
(now + 30×max(months,1) days, ISO-formatted); `now` abstracts `NOW()::text`. -/
def start_config_build (db : DB) (tg : Int) (order_id : Nat) (offer : OfferR)
    (createResp : Option String) (now : String) (expiry : Int → String) :
    BuildResult :=
  let created := create_connection db tg offer.server offer.protocol
    offer.speed_limits (pyIntToString offer.devices) offer.data_limits
    (expiry offer.months) "pending" none (some order_id) now
  let db1 := created.1
  let cid := created.2
  let payload : CreatePayload :=
    ⟨order_id, cid, tg, offer.plan_code, offer.server, offer.protocol⟩
  match createResp with
  | none =>
    let upd := update_connection_task db1 cid tg "failed" none none
    ⟨upd.1, cid, payload, false, none, [.key "config_create_error"], 1⟩
  | some task_id =>
    let upd := update_connection_task db1 cid tg "creating" (some task_id) none
    ⟨upd.1, cid, payload, true, some task_id, [], 1⟩

/-- Full outcome taxonomy of the `master_node_client.create_config(payload)`
call as seen by `_start_config_build`: success with a task id; a raised
`MasterNodeError` (HTTP status >= 400, malformed JSON, `ok: false`, or empty
task id — the cases `MasterNodeClient` wraps); or a raw transport exception
(httpx connect/timeout errors raised by `client.request` itself), which
`MasterNodeClient._request` does **not** wrap into `MasterNodeError`. -/
inductive CreateOutcome
  | ok (task_id : String)
  | masterError
  | transportError
deriving DecidableEq, Repr

/-- `_start_config_build` over the full outcome taxonomy. The first two
outcomes are the handled paths of `start_config_build`. On
`CreateOutcome.transportError` the exception does not match
`except MasterNodeError`: it propagates out of the handler, so after the
`create_connection` insert and the payload construction nothing further runs —
no connection-status write, no notification, no poll task. The second
component records whether an exception escaped the handler. -/
def start_config_build_run (db : DB) (tg : Int) (order_id : Nat)
    (offer : OfferR) (outcome : CreateOutcome) (now : String)
    (expiry : Int → String) : BuildResult × Bool :=
  match outcome with
  | .ok task_id =>
    (start_config_build db tg order_id offer (some task_id) now expiry, false)
  | .masterError =>
    (start_config_build db tg order_id offer none now expiry, false)
  | .transportError =>
    let created := create_connection db tg offer.server offer.protocol
      offer.speed_limits (pyIntToString offer.devices) offer.data_limits
      (expiry offer.months) "pending" none (some order_id) now
    let payload : CreatePayload :=
      ⟨order_id, created.2, tg, offer.plan_code, offer.server, offer.protocol⟩
    (⟨created.1, created.2, payload, false, none, [], 1⟩, true)

/-- Observable result of `_complete_paid_order` (and of the payment handlers
that wrap it): final store, notifications in order, and the
`_start_config_build` result when the build path was reached. -/
structure CompleteResult where
  db : DB
  msgs : List OutMsg
  build : Option BuildResult
deriving Repr

/-- `_complete_paid_order`: unconditionally overwrites the order status with
`'paid'`, logs a `succeeded` payment event, re-derives the offer from the
stored plan code (reporting a missing-draft failure when it no longer parses),
then clears the draft and starts the config build. -/
def complete_paid_order (db : DB) (order : OrderRow) (createResp : Option String)
    (now : String) (expiry : Int → String) : CompleteResult :=
  let upd := update_order_status db order.id order.tg_id "paid" none now
  let db2 := log_payment_event upd.1 order.id order.tg_id order.payment_method
    "succeeded" (some "payment_confirmed")
  match offer_from_plan order.plan with
  | none => ⟨db2, [.key "pay_missing_draft"], none⟩
  | some offer0 =>
    let offer := { offer0 with server := order.server, protocol := order.protocol }
    let db3 := reset_draft db2 order.tg_id
    let b := start_config_build db3 order.tg_id order.id offer createResp now expiry
    ⟨b.db, .key "config_starting" :: b.msgs, some b⟩

/-- `finish_payment_simulation` after callback parsing: dispatch on the
simulated result string for the given order id. -/
def finish_payment_simulation (db : DB) (tg : Int) (result : String)
    (order_id : Nat) (createResp : Option String) (now : String)
    (expiry : Int → String) : CompleteResult :=
  match get_order db order_id tg with
  | none => ⟨db, [.key "pay_missing_order"], none⟩
  | some order =>
    if result == "success" then
      let db1 := log_payment_event db order_id tg order.payment_method
        "stub_success" (some "local_stub_success")
      complete_paid_order db1 order createResp now expiry
    else if result == "failed" then
      let upd := update_order_status db order_id tg "failed"
        (some "local_stub_failure") now
      let db2 := log_payment_event upd.1 order_id tg order.payment_method
        "failed" (some "local_stub_failure")
      ⟨db2, [.key "pay_failed_text"], none⟩
    else if result == "cancel" then
      let upd := update_order_status db order_id tg "cancelled"
        (some "local_stub_cancelled") now
      let db2 := log_payment_event upd.1 order_id tg order.payment_method
        "cancelled" (some "local_stub_cancelled")
      ⟨db2, [.key "pay_cancel_text"], none⟩
    else ⟨db, [.key "pay_missing_order"], none⟩

/-- `CryptoInvoice` from `app/services/cryptobot.py`. -/
structure CryptoInvoiceR where
  invoice_id : Int
  pay_url : String
  status : String
deriving DecidableEq, Repr

/-- Tail of `check_cryptobot_payment` once the order (matching the callback and
owned by the caller, with payment method `'cryptobot'`) and the gateway invoice
have been fetched: dispatch on `invoice.status.lower()`. -/
def check_cryptobot_payment_settle (db : DB) (tg : Int) (order : OrderRow)
    (invoice : CryptoInvoiceR) (createResp : Option String) (now : String)
    (expiry : Int → String) : CompleteResult :=
  let status := pyLower invoice.status
  let details := some ("invoice_id=" ++ pyIntToString invoice.invoice_id)
  if status == "paid" then
    let db1 := log_payment_event db order.id tg "cryptobot" "cryptobot_paid" details
    complete_paid_order db1 order createResp now expiry
  else if status == "expired" || status == "cancelled" then
    let upd := update_order_status db order.id tg "failed"
      (some ("cryptobot_" ++ status)) now
    let db2 := log_payment_event upd.1 order.id tg "cryptobot"
      ("cryptobot_" ++ status) details
    ⟨db2, [.key "pay_failed_text"], none⟩
  else ⟨db, [.key "cryptobot_pending"], none⟩

/-! ## Concrete fixtures and claim-rendering predicates -/

/-- Expiration oracle used in concrete runs (the value is irrelevant to every
property below). -/
def exExpiry : Int → String := fun _ => "2026-01-01T00:00:00+00:00"

/-- A pending order about to be paid (plan `ready:standard:1`). -/
def exOrderPending : OrderRow :=
  ⟨1, 77, "ready:standard:1", "de", "wireguard", "stars", 6, "pending", none, none⟩

/-- Store holding only `exOrderPending`. -/
def exDB1 : DB := ⟨[exOrderPending], [], [], [], [], 1, 1⟩

/-- `exOrderPending` as read back after the first completion (status `paid`,
`paid_at` stamped at `T0`). -/
def exOrderPaid : OrderRow :=
  ⟨1, 77, "ready:standard:1", "de", "wireguard", "stars", 6, "paid", none, some "T0"⟩

/-- An order that ended in status `failed` through the stub `failed` result. -/
def exFailedOrder : OrderRow :=
  ⟨5, 77, "ready:standard:1", "de", "wireguard", "sbp", 6, "failed",
    some "local_stub_failure", none⟩

/-- Store holding only `exFailedOrder`. -/
def exDB2 : DB := ⟨[exFailedOrder], [], [], [], [], 1, 1⟩

/-- Rendering of claim C3's connection-status diagram
`pending -> creating -> {active | failed}` as its set of edges. -/
def claimed_conn_edge (a b : String) : Bool :=
  (a == "pending" && b == "creating") || (a == "creating" && b == "active") ||
    (a == "creating" && b == "failed")

/-- The amended edge set: claim C3's diagram plus the `pending -> failed` edge
taken when the initial create/renew request fails. -/
def amended_conn_edge (a b : String) : Bool :=
  claimed_conn_edge a b || (a == "pending" && b == "failed")

/-- Replays the two repository writes `_start_config_build` performs on its new
row in the failure branch — the `create_connection` insert and the subsequent
`update_connection_task` — and reports the row's status after each: the pair is
(status after the insert, status at the end of the failing run). The insert
stage is re-run with exactly the arguments `start_config_build` passes, so the
first component is the row's status at the moment of the `failed` write. -/
def build_error_status_trace (db : DB) (tg : Int) (order_id : Nat)
    (offer : OfferR) (now : String) (expiry : Int → String) :
    Option String × Option String :=
  let created := create_connection db tg offer.server offer.protocol
    offer.speed_limits (pyIntToString offer.devices) offer.data_limits
    (expiry offer.months) "pending" none (some order_id) now
  let b := start_config_build db tg order_id offer none now expiry
  ((get_connection created.1 created.2 tg).map (fun c => c.status),
    (get_connection b.db b.connection_id tg).map (fun c => c.status))

/-- Offer used in concrete `_start_config_build` runs. -/
def exOffer : OfferR :=
  ⟨"ready:standard:1", "de", "wireguard", 1, 3, "До 100 Mbps", "Безлимит"⟩

/-- An empty store. -/
def exDBEmpty : DB := ⟨[], [], [], [], [], 1, 1⟩

/-- A connection row in status `creating`, being polled. -/
def exConnCreating : ConnectionRow :=
  ⟨10, 77, some 1, "de", "wireguard", "T0", "", "3", "", "",
    "2026-01-01T00:00:00+00:00", "creating", some "t1"⟩

/-- Store holding only `exConnCreating`. -/
def exDBPoll : DB := ⟨[], [], [], [exConnCreating], [], 11, 1⟩

/-- Remote task statuses for a run that never reaches a terminal status. -/
def exRespPending : Nat → Option TaskStatusR :=
  fun _ => some ⟨"t1", "pending", "", none⟩

/-- Remote task statuses for a run whose first attempt raises
`MasterNodeError` and whose later attempts report `done` with configuration
text `CFG-DATA`. -/
def exRespErrorThenDone : Nat → Option TaskStatusR :=
  fun k => if k == 1 then none else some ⟨"t1", "done", "", some "CFG-DATA"⟩

/-- A draft with plan, server and protocol already chosen. -/
def exDraftDB : DB :=
  ⟨[], [⟨77, some "ready:standard:1", some "de", some "wireguard", none⟩],
    [], [], [], 1, 1⟩

/-- A pending cryptobot order. -/
def exCryptoOrder : OrderRow :=
  ⟨3, 77, "ready:standard:1", "de", "wireguard", "cryptobot", 6, "pending",
    none, none⟩

/-- Store holding only `exCryptoOrder`. -/
def exDBCrypto : DB := ⟨[exCryptoOrder], [], [], [], [], 1, 1⟩

/-- A gateway invoice that expired before payment. -/
def exInvoiceExpired : CryptoInvoiceR := ⟨555, "https://pay.example/i/555", "expired"⟩

/-! ## Helper lemmas: digits, parsing, splitting -/

theorem digitChar_spec : ∀ m : Nat, m < 10 →
    (Nat.digitChar m).isDigit = true ∧ (Nat.digitChar m).toNat = 48 + m := by
  decide

theorem digitsToNat_append_singleton (l : List Char) (c : Char) :
    digitsToNat (l ++ [c]) = digitsToNat l * 10 + (c.toNat - 48) := by
  simp [digitsToNat, List.foldl_append]

theorem natToCharsFuel_spec : ∀ fuel n, n ≤ fuel →
    digitsToNat (natToCharsFuel fuel n) = n ∧ natToCharsFuel fuel n ≠ [] ∧
      (natToCharsFuel fuel n).all Char.isDigit = true := by
  intro fuel
  induction fuel with
  | zero =>
    intro n hn
    have hn0 : n = 0 := Nat.le_zero.mp hn
    subst hn0
    refine ⟨by decide, by decide, by decide⟩
  | succ fuel ih =>
    intro n hn
    by_cases h10 : n < 10
    · have hd := digitChar_spec n h10
      simp only [natToCharsFuel, if_pos h10]
      refine ⟨?_, by simp, by simp [hd.1]⟩
      simp [digitsToNat, hd.2]
    · have hdiv : n / 10 ≤ fuel := by omega
      have ihd := ih (n / 10) hdiv
      have hd := digitChar_spec (n % 10) (by omega)
      simp only [natToCharsFuel, if_neg h10]
      refine ⟨?_, by simp, ?_⟩
      · rw [digitsToNat_append_singleton, ihd.1, hd.2]
        omega
      · simp [List.all_append, ihd.2.2, hd.1]

theorem natToChars_spec (n : Nat) :
    digitsToNat (natToChars n) = n ∧ natToChars n ≠ [] ∧
      (natToChars n).all Char.isDigit = true :=
  natToCharsFuel_spec n n le_rfl

theorem pyParseDigits_natToChars (n : Nat) :
    pyParseDigits (natToChars n) = some n := by
  obtain ⟨hval, hne, hall⟩ := natToChars_spec n
  have hempty : (natToChars n).isEmpty = false := by
    cases h : natToChars n with
    | nil => exact absurd h hne
    | cons c t => simp [List.isEmpty]
  simp [pyParseDigits, hempty, hall, hval]

theorem digit_not_minus {c : Char} (h : c.isDigit = true) : (c == '-') = false := by
  cases hb : c == '-' with
  | false => rfl
  | true =>
    have : c = '-' := by simpa using hb
    subst this
    simp at h

theorem digit_not_plus {c : Char} (h : c.isDigit = true) : (c == '+') = false := by
  cases hb : c == '+' with
  | false => rfl
  | true =>
    have : c = '+' := by simpa using hb
    subst this
    simp at h

theorem digit_not_colon {c : Char} (h : c.isDigit = true) : (c == ':') = false := by
  cases hb : c == ':' with
  | false => rfl
  | true =>
    have : c = ':' := by simpa using hb
    subst this
    simp at h

theorem pyParseInt_natToChars (n : Nat) :
    pyParseInt (natToChars n) = some (n : Int) := by
  obtain ⟨hval, hne, hall⟩ := natToChars_spec n
  obtain ⟨c, rest, hc⟩ := List.exists_cons_of_ne_nil hne
  have hcd : c.isDigit = true := by
    have := List.all_eq_true.mp hall
    exact this c (by rw [hc]; simp)
  have h1 := digit_not_minus hcd
  have h2 := digit_not_plus hcd
  rw [hc]
  simp only [pyParseInt, h1, h2, Bool.false_eq_true, if_false]
  rw [← hc, pyParseDigits_natToChars]

theorem pyParseInt_pyIntToChars (i : Int) :
    pyParseInt (pyIntToChars i) = some i := by
  by_cases hi : i < 0
  · simp only [pyIntToChars, if_pos hi]
    simp only [pyParseInt]
    rw [if_pos (by rfl), pyParseDigits_natToChars]
    have hval : (-(i.natAbs : Int)) = i := by omega
    exact congrArg some hval
  · simp only [pyIntToChars, if_neg hi]
    rw [pyParseInt_natToChars]
    congr 1
    omega

theorem pyIntToChars_no_colon (i : Int) :
    ∀ c ∈ pyIntToChars i, (c == ':') = false := by
  intro c hc
  by_cases hi : i < 0
  · simp only [pyIntToChars, if_pos hi] at hc
    rcases List.mem_cons.mp hc with h | h
    · subst h; decide
    · exact digit_not_colon
        (List.all_eq_true.mp (natToChars_spec i.natAbs).2.2 c h)
  · simp only [pyIntToChars, if_neg hi] at hc
    exact digit_not_colon
      (List.all_eq_true.mp (natToChars_spec i.toNat).2.2 c hc)

theorem pySplit_ne_nil (sep : Char) (l : List Char) : pySplit sep l ≠ [] := by
  induction l with
  | nil => simp [pySplit]
  | cons c rest ih =>
    simp only [pySplit]
    split
    · simp
    · split
      · simp
      · simp

theorem pySplit_cons_sep (sep : Char) (l : List Char) :
    pySplit sep (sep :: l) = [] :: pySplit sep l := by
  simp [pySplit]

theorem pySplit_append_no_sep (sep : Char) :
    ∀ l₁ l₂ : List Char, (∀ c ∈ l₁, (c == sep) = false) →
      pySplit sep (l₁ ++ sep :: l₂) = l₁ :: pySplit sep l₂ := by
  intro l₁
  induction l₁ with
  | nil =>
    intro l₂ _
    simpa using pySplit_cons_sep sep l₂
  | cons c t ih =>
    intro l₂ h
    have hc : (c == sep) = false := h c (by simp)
    have ht := ih l₂ (fun x hx => h x (by simp [hx]))
    simp only [List.cons_append, pySplit, hc, Bool.false_eq_true, if_false,
      List.append_eq]
    rw [ht]

theorem pySplit_no_sep (sep : Char) :
    ∀ l : List Char, (∀ c ∈ l, (c == sep) = false) → pySplit sep l = [l] := by
  intro l
  induction l with
  | nil => intro _; rfl
  | cons c t ih =>
    intro h
    have hc : (c == sep) = false := h c (by simp)
    have ht := ih (fun x hx => h x (by simp [hx]))
    simp only [pySplit, hc, Bool.false_eq_true, if_false]
    rw [ht]

theorem isPrefixOf_append_self (l t : List Char) :
    List.isPrefixOf l (l ++ t) = true := by
  simp [List.isPrefixOf_iff_prefix]

/-! ## Helper lemmas: list tables -/

theorem find?_map_if {α : Type} (p : α → Bool) (g : α → α)
    (hg : ∀ a, p a = true → p (g a) = true) :
    ∀ l : List α,
      (l.map (fun a => if p a then g a else a)).find? p = (l.find? p).map g := by
  intro l
  induction l with
  | nil => rfl
  | cons a t ih =>
    by_cases hpa : p a = true
    · simp [hpa, hg a hpa]
    · have hf : p a = false := by simpa using hpa
      simp [hf, ih]

/-! ## Helper lemmas: plan-code round trips -/

theorem ready_roundtrip_table : ∀ e ∈ READY_OPTIONS,
    parse_ready_plan_code (build_ready_plan_code e.1.1 e.1.2) = some e.2 := by
  decide

theorem custom_chars_no_colon : ∀ c ∈ "custom".data, (c == ':') = false := by
  decide

theorem parse_custom_core_build (s pr : List Char) (m d : Int)
    (hs : ∀ c ∈ s, (c == ':') = false) (hpr : ∀ c ∈ pr, (c == ':') = false) :
    parse_custom_core (build_custom_core s pr m d) = some (s, pr, m, d) := by
  have h0 : build_custom_core s pr m d =
      "custom".data ++ ':' ::
        (s ++ ':' :: (pr ++ ':' :: (pyIntToChars m ++ ':' :: pyIntToChars d))) := by
    simp [build_custom_core, List.append_assoc]
  have hsplit : pySplit ':' (build_custom_core s pr m d) =
      ["custom".data, s, pr, pyIntToChars m, pyIntToChars d] := by
    rw [h0,
      pySplit_append_no_sep ':' "custom".data _ custom_chars_no_colon,
      pySplit_append_no_sep ':' s _ hs,
      pySplit_append_no_sep ':' pr _ hpr,
      pySplit_append_no_sep ':' (pyIntToChars m) _ (pyIntToChars_no_colon m),
      pySplit_no_sep ':' (pyIntToChars d) (pyIntToChars_no_colon d)]
  have hpre : List.isPrefixOf "custom:".data (build_custom_core s pr m d) = true := by
    have : build_custom_core s pr m d =
        "custom:".data ++
          (s ++ ':' :: (pr ++ ':' :: (pyIntToChars m ++ ':' :: pyIntToChars d))) := by
      simp [build_custom_core, List.append_assoc]
    rw [this]
    exact isPrefixOf_append_self _ _
  simp only [parse_custom_core, hpre, if_true, hsplit,
    pyParseInt_pyIntToChars]

theorem parse_build_custom_plan_code (s pr : String) (m d : Int)
    (hs : ':' ∉ s.data) (hpr : ':' ∉ pr.data) :
    parse_custom_plan_code (build_custom_plan_code s pr m d) = some (s, pr, m, d) := by
  have hs' : ∀ c ∈ s.data, (c == ':') = false := by
    intro c hc
    exact beq_eq_false_iff_ne.mpr (fun h => hs (h ▸ hc))
  have hpr' : ∀ c ∈ pr.data, (c == ':') = false := by
    intro c hc
    exact beq_eq_false_iff_ne.mpr (fun h => hpr (h ▸ hc))
  show (parse_custom_core (String.mk (build_custom_core s.data pr.data m d)).data).map _
      = some (s, pr, m, d)
  rw [show (String.mk (build_custom_core s.data pr.data m d)).data
      = build_custom_core s.data pr.data m d from rfl]
  rw [parse_custom_core_build s.data pr.data m d hs' hpr']
  rfl

/-! ## Helper lemmas: keyed row updates -/

theorem get_connection_after_update (db : DB) (cid : Nat) (tg : Int)
    (status : String) (task_id config_text : Option String) (rowC : ConnectionRow)
    (h : get_connection db cid tg = some rowC) :
    get_connection (update_connection_task db cid tg status task_id config_text).1
      cid tg = some
        { rowC with
          status := status
          task_id := match task_id with
            | some t => some t
            | none => rowC.task_id
          config_text := match config_text with
            | some t => t
            | none => rowC.config_text } := by
  show (db.connections.map _).find? (connKey cid tg) = _
  rw [find?_map_if (connKey cid tg) _ (by intro a ha; simpa [connKey] using ha)]
  rw [show db.connections.find? (connKey cid tg) = some rowC from h]
  rfl

theorem get_order_after_update (db : DB) (oid : Nat) (tg : Int)
    (status : String) (failure_reason : Option String) (now : String)
    (rowO : OrderRow) (h : get_order db oid tg = some rowO) :
    get_order (update_order_status db oid tg status failure_reason now).1 oid tg
      = some
        { rowO with
          status := status
          failure_reason := failure_reason
          paid_at := if status == "paid" then some now else rowO.paid_at } := by
  show (db.orders.map _).find? (orderKey oid tg) = _
  rw [find?_map_if (orderKey oid tg) _ (by intro a ha; simpa [orderKey] using ha)]
  rw [show db.orders.find? (orderKey oid tg) = some rowO from h]
  rfl

/-! ## Helper lemmas: the poll loop -/

theorem respSuccess_config_ne_empty {r : Option TaskStatusR}
    (h : respSuccess r = true) : ¬(respConfig r = "") := by
  cases r with
  | none => simp [respSuccess] at h
  | some st =>
    cases hc : st.config_text with
    | none => simp [respSuccess, configTruthy, hc] at h
    | some c =>
      simp only [respSuccess, configTruthy, hc, Bool.and_eq_true] at h
      simp only [respConfig, hc]
      intro hce
      rw [hce] at h
      simp at h

theorem respSuccess_status_done {r : Option TaskStatusR}
    (h : respSuccess r = true) :
    ∃ st, r = some st ∧
      (st.status = "done" ∨ st.status = "ready" ∨ st.status = "success") ∧
      st.config_text = some (respConfig r) := by
  cases r with
  | none => simp [respSuccess] at h
  | some st =>
    refine ⟨st, rfl, ?_, ?_⟩
    · simp only [respSuccess, Bool.and_eq_true, Bool.or_eq_true, beq_iff_eq] at h
      tauto
    · cases hc : st.config_text with
      | none => simp [respSuccess, configTruthy, hc] at h
      | some c => simp [respConfig, hc]

theorem poll_go_all_pending (responses : Nat → Option TaskStatusR)
    (interval : Int) (tg : Int) (cid : Nat) (task : String) :
    ∀ (l : List Nat) (db : DB) (used : Nat) (sleeps : List Int),
      (∀ a ∈ l, respSuccess (responses a) = false ∧ respFailed (responses a) = false) →
      poll_master_task_go responses interval tg cid task db used sleeps l =
        ⟨db, .timeout, used + l.length,
          sleeps ++ List.replicate l.length (max 5 interval),
          [.key "config_timeout"]⟩ := by
  intro l
  induction l with
  | nil =>
    intro db used sleeps _
    simp [poll_master_task_go]
  | cons a rest ih =>
    intro db used sleeps h
    have ha := h a (by simp)
    simp only [poll_master_task_go, ha.1, ha.2, Bool.false_eq_true, if_false]
    rw [ih db (used + 1) (sleeps ++ [max 5 interval])
      (fun x hx => h x (by simp [hx]))]
    have h1 : used + 1 + rest.length = used + (a :: rest).length := by
      simp [List.length_cons]
      omega
    have h2 : (sleeps ++ [max 5 interval]) ++
        List.replicate rest.length (max 5 interval) =
        sleeps ++ List.replicate (a :: rest).length (max 5 interval) := by
      simp [List.length_cons, List.replicate_succ, List.append_assoc]
    rw [h1, h2]

theorem poll_go_success_at (responses : Nat → Option TaskStatusR)
    (interval : Int) (tg : Int) (cid : Nat) (task : String) :
    ∀ (l₁ : List Nat) (j : Nat) (rest : List Nat) (db : DB) (used : Nat)
      (sleeps : List Int),
      (∀ a ∈ l₁, respSuccess (responses a) = false ∧ respFailed (responses a) = false) →
      respSuccess (responses j) = true →
      poll_master_task_go responses interval tg cid task db used sleeps
          (l₁ ++ j :: rest) =
        ⟨(update_connection_task db cid tg "active" (some task)
            (some (respConfig (responses j)))).1,
          .active (respConfig (responses j)), used + l₁.length + 1,
          sleeps ++ List.replicate l₁.length (max 5 interval),
          [.raw (respConfig (responses j))]⟩ := by
  intro l₁
  induction l₁ with
  | nil =>
    intro j rest db used sleeps _ hj
    simp [poll_master_task_go, hj]
  | cons a t ih =>
    intro j rest db used sleeps h hj
    have ha := h a (by simp)
    simp only [List.cons_append, poll_master_task_go, ha.1, ha.2,
      Bool.false_eq_true, if_false, List.append_eq]
    rw [ih j rest db (used + 1) (sleeps ++ [max 5 interval])
      (fun x hx => h x (by simp [hx])) hj]
    have h1 : used + 1 + t.length + 1 = used + (a :: t).length + 1 := by
      simp [List.length_cons]
      omega
    have h2 : (sleeps ++ [max 5 interval]) ++
        List.replicate t.length (max 5 interval) =
        sleeps ++ List.replicate (a :: t).length (max 5 interval) := by
      simp [List.length_cons, List.replicate_succ, List.append_assoc]
    rw [h1, h2]

theorem poll_go_cases (responses : Nat → Option TaskStatusR) (interval : Int)
    (tg : Int) (cid : Nat) (task : String) :
    ∀ (l : List Nat) (db : DB) (used : Nat) (sleeps : List Int),
      (poll_master_task_go responses interval tg cid task db used sleeps l).db = db ∧
        (poll_master_task_go responses interval tg cid task db used sleeps l).outcome
          = .timeout
      ∨ (∃ a ∈ l, respSuccess (responses a) = true ∧
          (poll_master_task_go responses interval tg cid task db used sleeps l).db =
            (update_connection_task db cid tg "active" (some task)
              (some (respConfig (responses a)))).1 ∧
          (poll_master_task_go responses interval tg cid task db used sleeps l).outcome
            = .active (respConfig (responses a)))
      ∨ (∃ a ∈ l, respFailed (responses a) = true ∧
          (poll_master_task_go responses interval tg cid task db used sleeps l).db =
            (update_connection_task db cid tg "failed" (some task) none).1 ∧
          (poll_master_task_go responses interval tg cid task db used sleeps l).outcome
            = .failed) := by
  intro l
  induction l with
  | nil =>
    intro db used sleeps
    left
    simp [poll_master_task_go]
  | cons a rest ih =>
    intro db used sleeps
    by_cases hs : respSuccess (responses a) = true
    · right; left
      refine ⟨a, by simp, hs, ?_, ?_⟩ <;>
        simp [poll_master_task_go, hs]
    · have hs' : respSuccess (responses a) = false := by simpa using hs
      by_cases hf : respFailed (responses a) = true
      · right; right
        refine ⟨a, by simp, hf, ?_, ?_⟩ <;>
          simp [poll_master_task_go, hs', hf]
      · have hf' : respFailed (responses a) = false := by simpa using hf
        have heq : poll_master_task_go responses interval tg cid task db used sleeps
            (a :: rest) = poll_master_task_go responses interval tg cid task db
              (used + 1) (sleeps ++ [max 5 interval]) rest := by
          simp [poll_master_task_go, hs', hf']
        rw [heq]
        rcases ih db (used + 1) (sleeps ++ [max 5 interval]) with h | h | h
        · left; exact h
        · right; left
          obtain ⟨x, hx, hrest⟩ := h
          exact ⟨x, by simp [hx], hrest⟩
        · right; right
          obtain ⟨x, hx, hrest⟩ := h
          exact ⟨x, by simp [hx], hrest⟩

/-! ## Claim theorems -/

/-- Claim C10: plan-code encoding round-trips. For every plan code and months
with a ready option, `parse_ready_plan_code (build_ready_plan_code p m)`
returns that option; and for every server, protocol, months and devices where
server and protocol contain no `:` character,
`parse_custom_plan_code (build_custom_plan_code s pr m d)` returns
`(s, pr, m, d)`. -/
theorem plan_code_roundtrip :
    (∀ (p : String) (m : Int) (o : ReadyTariffOption),
      get_ready_option p m = some o →
      parse_ready_plan_code (build_ready_plan_code p m) = some o) ∧
    (∀ (s pr : String) (m d : Int), ':' ∉ s.data → ':' ∉ pr.data →
      parse_custom_plan_code (build_custom_plan_code s pr m d)
        = some (s, pr, m, d)) := by
  constructor
  · intro p m o h
    unfold get_ready_option at h
    cases hf : READY_OPTIONS.find? (fun e => e.1.1 == p && e.1.2 == m) with
    | none => rw [hf] at h; simp at h
    | some e =>
      rw [hf] at h
      simp only [Option.map_some'] at h
      have hmem := List.mem_of_find?_eq_some hf
      have hpred := List.find?_some hf
      simp only [Bool.and_eq_true, beq_iff_eq] at hpred
      have hround := ready_roundtrip_table e hmem
      rw [hpred.1, hpred.2] at hround
      rw [hround, h]
  · intro s pr m d hs hpr
    exact parse_build_custom_plan_code s pr m d hs hpr

/-- Witness for C10 at concrete inputs: the `("standard", 1)` ready option and
the custom plan `("de", "vless", 3, 2)`. -/
theorem plan_code_roundtrip_witness :
    parse_ready_plan_code (build_ready_plan_code "standard" 1) =
      some ⟨"standard", 1, 599, 461, 399, 3, "До 100 Mbps", "Безлимит",
        "Средний", "3 устройства • Безлимит • До 100 Mbps"⟩ ∧
    parse_custom_plan_code (build_custom_plan_code "de" "vless" 3 2) =
      some ("de", "vless", 3, 2) :=
  ⟨plan_code_roundtrip.1 "standard" 1 _ (by decide),
    plan_code_roundtrip.2 "de" "vless" 3 2 (by decide) (by decide)⟩

/-- Claim C4: if the remote orchestrator never reports a terminal status over
the whole attempt range, `_poll_master_task` performs exactly 40 attempts and
ends with the timeout outcome — the user is notified with the timeout message,
the store is left exactly as it was, and every executed sleep lasts
`max(5, poll_interval_sec)` seconds. -/
theorem poll_times_out_after_40_attempts
    (responses : Nat → Option TaskStatusR) (interval : Int) (tg : Int)
    (cid : Nat) (task : String) (db : DB)
    (h : ∀ k ∈ List.range' 1 40,
      respSuccess (responses k) = false ∧ respFailed (responses k) = false) :
    poll_master_task responses interval tg cid task db =
      ⟨db, .timeout, 40, List.replicate 40 (max 5 interval),
        [.key "config_timeout"]⟩ := by
  unfold poll_master_task
  rw [poll_go_all_pending responses interval tg cid task (List.range' 1 40)
    db 0 [] h]
  simp

/-- Witness for C4: all 40 attempts report `pending`, with a configured
interval of 7 seconds. -/
theorem poll_times_out_after_40_attempts_witness :
    poll_master_task exRespPending 7 77 10 "t1" exDBPoll =
      ⟨exDBPoll, .timeout, 40, List.replicate 40 (max 5 7),
        [.key "config_timeout"]⟩ :=
  poll_times_out_after_40_attempts exRespPending 7 77 10 "t1" exDBPoll
    (by decide)

/-- The `MasterNodeError` branch of `_start_config_build` (request failures
the client wraps: HTTP status >= 400, malformed body, `ok: false`, missing
task id): the freshly created Connection row is marked `failed` immediately,
the user is notified with the config-create error message, no polling task is
scheduled, and the creation call is issued exactly once. Claim C6 additionally
asserts this for raw transport failures, where it fails — see
`transport_error_leaves_connection_pending`. -/
theorem create_config_failure_marks_connection_failed
    (db : DB) (tg : Int) (order_id : Nat) (offer : OfferR) (now : String)
    (expiry : Int → String) :
    (∃ row,
      (start_config_build db tg order_id offer none now expiry).db.connections.head?
        = some row ∧
      row.status = "failed" ∧
      row.id = (start_config_build db tg order_id offer none now expiry).connection_id ∧
      row.order_id = some order_id ∧
      (start_config_build db tg order_id offer none now expiry).db.connections.length
        = db.connections.length + 1) ∧
    (start_config_build db tg order_id offer none now expiry).msgs
      = [.key "config_create_error"] ∧
    (start_config_build db tg order_id offer none now expiry).pollScheduled = false ∧
    (start_config_build db tg order_id offer none now expiry).create_calls = 1 := by
  refine ⟨⟨⟨db.next_connection_id, tg, some order_id, offer.server,
    offer.protocol, now, offer.speed_limits, pyIntToString offer.devices,
    offer.data_limits, "", expiry offer.months, "failed", none⟩,
    ?_, rfl, ?_, rfl, ?_⟩, rfl, rfl, rfl⟩
  · simp [start_config_build, create_connection, update_connection_task, connKey]
  · rfl
  · simp [start_config_build, create_connection, update_connection_task, connKey]

/-- Claim C5: transport errors during polling are transient. If attempt `k`
raises a remote-orchestration error, every attempt before `j` is non-terminal,
and attempt `j ≤ 40` returns status `done` with non-empty configuration text
`C`, then the poll run ends with the `active` outcome and the Connection row is
stored with status `active` and configuration text `C`. -/
theorem poll_transient_error_then_done_yields_active
    (responses : Nat → Option TaskStatusR) (interval : Int) (tg : Int)
    (cid : Nat) (task : String) (db : DB) (rowC : ConnectionRow)
    (k j : Nat) (st : TaskStatusR) (C : String)
    (hrow : get_connection db cid tg = some rowC)
    (hk1 : 1 ≤ k) (hkj : k < j) (hj40 : j ≤ 40)
    (herr : responses k = none)
    (hst : responses j = some st) (hdone : st.status = "done")
    (hcfg : st.config_text = some C) (hC : ¬(C = ""))
    (hpre : ∀ i ∈ List.range' 1 (j - 1),
      respSuccess (responses i) = false ∧ respFailed (responses i) = false) :
    (poll_master_task responses interval tg cid task db).outcome = .active C ∧
    ∃ row, get_connection (poll_master_task responses interval tg cid task db).db
        cid tg = some row ∧
      row.status = "active" ∧ row.config_text = C := by
  have hCb : (C == "") = false := beq_eq_false_iff_ne.mpr hC
  have hsucc : respSuccess (responses j) = true := by
    rw [hst]
    simp [respSuccess, configTruthy, hdone, hcfg, hCb]
  have hconf : respConfig (responses j) = C := by
    rw [hst]
    simp [respConfig, hcfg]
  have h3 : (41 - j) + (j - 1) = 40 := by omega
  have hsplitr : List.range' 1 40 =
      List.range' 1 (j - 1) ++ (j :: List.range' (j + 1) (40 - j)) := by
    calc List.range' 1 40 = List.range' 1 ((41 - j) + (j - 1)) := by rw [h3]
      _ = List.range' 1 (j - 1) ++ List.range' (1 + (j - 1)) (41 - j) :=
          (List.range'_append_1 _ _ _).symm
      _ = List.range' 1 (j - 1) ++ (j :: List.range' (j + 1) (40 - j)) := by
          rw [show (1 + (j - 1)) = j by omega, show (41 - j) = (40 - j) + 1 by omega,
            List.range'_succ]
  have hrun : poll_master_task responses interval tg cid task db =
      ⟨(update_connection_task db cid tg "active" (some task)
          (some (respConfig (responses j)))).1,
        .active (respConfig (responses j)), 0 + (List.range' 1 (j - 1)).length + 1,
        [] ++ List.replicate (List.range' 1 (j - 1)).length (max 5 interval),
        [.raw (respConfig (responses j))]⟩ := by
    unfold poll_master_task
    rw [hsplitr]
    exact poll_go_success_at responses interval tg cid task (List.range' 1 (j - 1))
      j (List.range' (j + 1) (40 - j)) db 0 [] hpre hsucc
  constructor
  · rw [hrun, hconf]
  · refine ⟨{ rowC with status := "active", task_id := some task, config_text := respConfig (responses j) }, ?_, rfl, hconf⟩
    rw [hrun]
    exact get_connection_after_update db cid tg "active" (some task)
      (some (respConfig (responses j))) rowC hrow

/-- Witness for C5: attempt 1 raises an error, attempt 2 returns `done` with
configuration text `CFG-DATA`; the `creating` connection row 10 ends `active`
with that text. -/
theorem poll_transient_error_then_done_yields_active_witness :
    (poll_master_task exRespErrorThenDone 7 77 10 "t1" exDBPoll).outcome
      = .active "CFG-DATA" ∧
    ∃ row, get_connection (poll_master_task exRespErrorThenDone 7 77 10 "t1"
        exDBPoll).db 10 77 = some row ∧
      row.status = "active" ∧ row.config_text = "CFG-DATA" :=
  poll_transient_error_then_done_yields_active exRespErrorThenDone 7 77 10 "t1"
    exDBPoll exConnCreating 1 2 ⟨"t1", "done", "", some "CFG-DATA"⟩ "CFG-DATA"
    (by decide) (by decide) (by decide) (by decide) (by decide) (by decide)
    (by decide) (by decide) (by decide) (by decide)

/-- Claim C7: `create_or_get_provisioning_job` is idempotent per order id.
Starting from a store satisfying the UNIQUE constraint on `order_id`, calling
it twice — with arbitrary values for the remaining parameters — returns the
same job row both times (in particular the same job id), the returned job
exists, and exactly one provisioning-job row for that order id remains. -/
theorem create_or_get_provisioning_job_idempotent
    (db : DB) (oid : Nat) (tg tg2 : Int) (s p sl st : String) (n : Option String)
    (s2 p2 sl2 st2 : String) (n2 : Option String)
    (h : db.provisioning_jobs.countP (jobKey oid) ≤ 1) :
    (create_or_get_provisioning_job
        (create_or_get_provisioning_job db oid tg s p sl st n).1
        oid tg2 s2 p2 sl2 st2 n2).2
      = (create_or_get_provisioning_job db oid tg s p sl st n).2 ∧
    (create_or_get_provisioning_job db oid tg s p sl st n).2.isSome = true ∧
    (create_or_get_provisioning_job
        (create_or_get_provisioning_job db oid tg s p sl st n).1
        oid tg2 s2 p2 sl2 st2 n2).1.provisioning_jobs.countP (jobKey oid)
      = 1 := by
  by_cases hany : db.provisioning_jobs.any (jobKey oid) = true
  · have hpos : 0 < db.provisioning_jobs.countP (jobKey oid) :=
      List.countP_pos_iff.mpr (by
        obtain ⟨x, hx, hpx⟩ := List.any_eq_true.mp hany
        exact ⟨x, hx, hpx⟩)
    refine ⟨?_, ?_, ?_⟩
    · simp only [create_or_get_provisioning_job, hany, if_true]
    · simp only [create_or_get_provisioning_job, hany, if_true,
        List.find?_isSome]
      obtain ⟨x, hx, hpx⟩ := List.any_eq_true.mp hany
      exact ⟨x, hx, hpx⟩
    · simp only [create_or_get_provisioning_job, hany, if_true]
      omega
  · have hany' : db.provisioning_jobs.any (jobKey oid) = false := by
      simpa using hany
    have hzero : db.provisioning_jobs.countP (jobKey oid) = 0 :=
      List.countP_eq_zero.mpr (by simpa using List.any_eq_false.mp hany')
    have hkey : jobKey oid
        (⟨db.next_job_id, oid, tg, s, p, sl, st, none, n⟩ : ProvisioningJobRow)
        = true := by simp [jobKey]
    have hany2 : (⟨db.next_job_id, oid, tg, s, p, sl, st, none, n⟩ ::
        db.provisioning_jobs).any (jobKey oid) = true := by
      simp [List.any_cons, hkey]
    refine ⟨?_, ?_, ?_⟩
    · simp only [create_or_get_provisioning_job, hany', Bool.false_eq_true,
        if_false, hany2, if_true]
    · simp only [create_or_get_provisioning_job, hany', Bool.false_eq_true,
        if_false]
      rw [List.find?_cons_of_pos _ hkey]
      rfl
    · simp only [create_or_get_provisioning_job, hany', Bool.false_eq_true,
        if_false, hany2, if_true]
      rw [List.countP_cons_of_pos _ _ hkey, hzero]

/-- Witness for C7: two calls on an empty store, with different secondary
arguments, return the identical job row and leave one row for order 9. -/
theorem create_or_get_provisioning_job_idempotent_witness :
    (create_or_get_provisioning_job
        (create_or_get_provisioning_job exDBEmpty 9 77 "de" "wireguard"
          "slave-de-01" "queued" none).1
        9 78 "fi" "vless" "slave-fi-01" "done" (some "x")).2
      = (create_or_get_provisioning_job exDBEmpty 9 77 "de" "wireguard"
          "slave-de-01" "queued" none).2 ∧
    (create_or_get_provisioning_job exDBEmpty 9 77 "de" "wireguard"
        "slave-de-01" "queued" none).2.isSome = true ∧
    (create_or_get_provisioning_job
        (create_or_get_provisioning_job exDBEmpty 9 77 "de" "wireguard"
          "slave-de-01" "queued" none).1
        9 78 "fi" "vless" "slave-fi-01" "done" (some "x")).1.provisioning_jobs.countP
        (jobKey 9) = 1 :=
  create_or_get_provisioning_job_idempotent exDBEmpty 9 77 78 "de" "wireguard"
    "slave-de-01" "queued" none "fi" "vless" "slave-fi-01" "done" (some "x")
    (by decide)

/-- `coalesceField x none = x`. -/
theorem coalesceField_none_right (x : Option String) : coalesceField x none = x := by
  cases x <;> rfl

/-- Characterization of `upsert_draft`: after an upsert, each draft field reads
back as the coalescing of the update value with the previously stored value. -/
theorem get_draft_upsert (db : DB) (tg : Int) (fp fs fpr fpay : Option String) :
    get_draft (upsert_draft db tg fp fs fpr fpay) tg =
      ⟨tg, coalesceField fp (get_draft db tg).plan,
        coalesceField fs (get_draft db tg).server,
        coalesceField fpr (get_draft db tg).protocol,
        coalesceField fpay (get_draft db tg).payment⟩ := by
  by_cases hany : db.drafts.any (draftKey tg) = true
  · have hex : (db.drafts.find? (draftKey tg)).isSome := by
      obtain ⟨x, hx, hpx⟩ := List.any_eq_true.mp hany
      simp only [List.find?_isSome]
      exact ⟨x, hx, hpx⟩
    obtain ⟨r, hf⟩ := Option.isSome_iff_exists.mp hex
    have hkeyr : draftKey tg r = true := List.find?_some hf
    have htg : r.tg_id = tg := by simpa [draftKey] using hkeyr
    have hdb : get_draft db tg = r := by
      simp only [get_draft, hf]
    have hL : get_draft (upsert_draft db tg fp fs fpr fpay) tg =
        ⟨r.tg_id, coalesceField fp r.plan, coalesceField fs r.server,
          coalesceField fpr r.protocol, coalesceField fpay r.payment⟩ := by
      simp only [upsert_draft, if_pos hany, get_draft]
      rw [find?_map_if (draftKey tg) _
        (by intro x hx; simpa [draftKey] using hx), hf]
      rfl
    rw [hL, htg, hdb]
  · have hf : db.drafts.find? (draftKey tg) = none := by
      rw [List.find?_eq_none]
      intro x hx
      have := List.any_eq_false.mp (by simpa using hany) x hx
      simpa using this
    have hdb : get_draft db tg = ⟨tg, none, none, none, none⟩ := by
      simp only [get_draft, hf]
    have hL : get_draft (upsert_draft db tg fp fs fpr fpay) tg =
        ⟨tg, fp, fs, fpr, fpay⟩ := by
      simp only [upsert_draft, if_neg hany, get_draft]
      rw [List.find?_cons_of_pos _ (by simp [draftKey])]
    rw [hL, hdb]
    simp [coalesceField_none_right]

/-- Claim C8: draft upsert is coalescing. For a user whose draft already has
plan, server and protocol set, upserting only the payment field leaves those
three fields unchanged; and in general every field absent from the update
(passed as `None`) reads back as the previously stored value. -/
theorem upsert_draft_coalesces
    (db : DB) (tg : Int) (a b c : String) (q : Option String) (pay : String)
    (h : get_draft db tg = ⟨tg, some a, some b, some c, q⟩) :
    get_draft (upsert_draft db tg none none none (some pay)) tg
      = ⟨tg, some a, some b, some c, some pay⟩ ∧
    ∀ fp fs fpr fpay : Option String,
      get_draft (upsert_draft db tg fp fs fpr fpay) tg =
        ⟨tg, coalesceField fp (get_draft db tg).plan,
          coalesceField fs (get_draft db tg).server,
          coalesceField fpr (get_draft db tg).protocol,
          coalesceField fpay (get_draft db tg).payment⟩ := by
  refine ⟨?_, fun fp fs fpr fpay => get_draft_upsert db tg fp fs fpr fpay⟩
  rw [get_draft_upsert db tg none none none (some pay), h]
  rfl

/-- Witness for C8: a draft with plan/server/protocol set receives a
payment-only upsert and keeps all three fields; a server-only upsert likewise
coalesces. -/
theorem upsert_draft_coalesces_witness :
    get_draft (upsert_draft exDraftDB 77 none none none (some "stars")) 77
      = ⟨77, some "ready:standard:1", some "de", some "wireguard", some "stars"⟩ ∧
    get_draft (upsert_draft exDraftDB 77 none (some "fi") none none) 77 =
      ⟨77, coalesceField none (get_draft exDraftDB 77).plan,
        coalesceField (some "fi") (get_draft exDraftDB 77).server,
        coalesceField none (get_draft exDraftDB 77).protocol,
        coalesceField none (get_draft exDraftDB 77).payment⟩ :=
  ⟨(upsert_draft_coalesces exDraftDB 77 "ready:standard:1" "de" "wireguard"
      none "stars" (by decide)).1,
    (upsert_draft_coalesces exDraftDB 77 "ready:standard:1" "de" "wireguard"
      none "stars" (by decide)).2 none (some "fi") none none⟩

/-- Claim C9: when the gateway invoice status check returns `expired` (or,
symmetrically, `cancelled`) for a cryptobot order, `check_cryptobot_payment`
sets the order status to `failed` with failure reason `cryptobot_expired`
(resp. `cryptobot_cancelled`) and appends a payment event of the same type to
the payment-event log; no completion is started. -/
theorem cryptobot_expired_or_cancelled_fails_order
    (db : DB) (tg : Int) (order : OrderRow) (invoice : CryptoInvoiceR)
    (createResp : Option String) (now : String) (expiry : Int → String)
    (horder : get_order db order.id tg = some order)
    (hstatus : invoice.status = "expired" ∨ invoice.status = "cancelled") :
    get_order (check_cryptobot_payment_settle db tg order invoice createResp
        now expiry).db order.id tg = some
      { order with
          status := "failed"
          failure_reason := some ("cryptobot_" ++ invoice.status) } ∧
    (check_cryptobot_payment_settle db tg order invoice createResp
        now expiry).db.payment_events = db.payment_events ++
      [⟨order.id, tg, "cryptobot", "cryptobot_" ++ invoice.status,
        some ("invoice_id=" ++ pyIntToString invoice.invoice_id)⟩] ∧
    (check_cryptobot_payment_settle db tg order invoice createResp
        now expiry).msgs = [.key "pay_failed_text"] ∧
    (check_cryptobot_payment_settle db tg order invoice createResp
        now expiry).build = none := by
  have hlow : pyLower invoice.status = invoice.status := by
    rcases hstatus with hs | hs <;> rw [hs] <;> decide
  have hpaid : (pyLower invoice.status == "paid") = false := by
    rw [hlow]
    rcases hstatus with hs | hs <;> rw [hs] <;> decide
  have hterm : (pyLower invoice.status == "expired" ||
      pyLower invoice.status == "cancelled") = true := by
    rw [hlow]
    rcases hstatus with hs | hs <;> rw [hs] <;> decide
  have hrun : check_cryptobot_payment_settle db tg order invoice createResp
      now expiry =
      ⟨log_payment_event
          (update_order_status db order.id tg "failed"
            (some ("cryptobot_" ++ pyLower invoice.status)) now).1
          order.id tg "cryptobot" ("cryptobot_" ++ pyLower invoice.status)
          (some ("invoice_id=" ++ pyIntToString invoice.invoice_id)),
        [.key "pay_failed_text"], none⟩ := by
    simp only [check_cryptobot_payment_settle, hpaid, Bool.false_eq_true,
      if_false, hterm, if_true]
  have hnotpaid : (("failed" : String) == "paid") = false := by decide
  refine ⟨?_, ?_, ?_, ?_⟩
  · rw [hrun]
    show get_order (update_order_status db order.id tg "failed"
        (some ("cryptobot_" ++ pyLower invoice.status)) now).1 order.id tg = _
    rw [get_order_after_update db order.id tg "failed"
      (some ("cryptobot_" ++ pyLower invoice.status)) now order horder]
    rw [hlow]
    simp [hnotpaid]
  · rw [hrun]
    show (update_order_status db order.id tg "failed"
        (some ("cryptobot_" ++ pyLower invoice.status)) now).1.payment_events
        ++ _ = _
    rw [hlow]
    rfl
  · rw [hrun]
  · rw [hrun]

/-- Witness for C9: invoice 555 reads back `expired` for pending cryptobot
order 3; the order becomes `failed` with reason `cryptobot_expired` and the
matching payment event is appended. -/
theorem cryptobot_expired_or_cancelled_fails_order_witness :
    get_order (check_cryptobot_payment_settle exDBCrypto 77 exCryptoOrder
        exInvoiceExpired none "T1" exExpiry).db 3 77 = some
      { exCryptoOrder with
          status := "failed"
          failure_reason := some ("cryptobot_" ++ exInvoiceExpired.status) } ∧
    (check_cryptobot_payment_settle exDBCrypto 77 exCryptoOrder
        exInvoiceExpired none "T1" exExpiry).db.payment_events =
      exDBCrypto.payment_events ++
      [⟨3, 77, "cryptobot", "cryptobot_" ++ exInvoiceExpired.status,
        some ("invoice_id=" ++ pyIntToString 555)⟩] ∧
    (check_cryptobot_payment_settle exDBCrypto 77 exCryptoOrder
        exInvoiceExpired none "T1" exExpiry).msgs = [.key "pay_failed_text"] ∧
    (check_cryptobot_payment_settle exDBCrypto 77 exCryptoOrder
        exInvoiceExpired none "T1" exExpiry).build = none :=
  cryptobot_expired_or_cancelled_fails_order exDBCrypto 77 exCryptoOrder
    exInvoiceExpired none "T1" exExpiry (by decide) (Or.inl (by decide))

/-- Claim C1 (code defect exhibit): a second invocation of
`_complete_paid_order` on an order already in status `paid` is not a no-op.
After a first completion of order 1 (leaving it `paid` with one Connection
row), invoking the completion path again on the read-back `paid` order
dispatches another create-configuration request (the build result is present
with one `create_config` call) and inserts a second Connection row. -/
theorem complete_paid_order_reruns_on_paid_order :
    (get_order (complete_paid_order exDB1 exOrderPending (some "task-1") "T0"
        exExpiry).db 1 77).map (fun o => o.status) = some "paid" ∧
    (complete_paid_order exDB1 exOrderPending (some "task-1") "T0"
        exExpiry).db.connections.length = 1 ∧
    get_order (complete_paid_order exDB1 exOrderPending (some "task-1") "T0"
        exExpiry).db 1 77 = some exOrderPaid ∧
    (complete_paid_order (complete_paid_order exDB1 exOrderPending
        (some "task-1") "T0" exExpiry).db exOrderPaid (some "task-2") "T1"
        exExpiry).build.isSome = true ∧
    ((complete_paid_order (complete_paid_order exDB1 exOrderPending
        (some "task-1") "T0" exExpiry).db exOrderPaid (some "task-2") "T1"
        exExpiry).build.map (fun b => b.create_calls)) = some 1 ∧
    (complete_paid_order (complete_paid_order exDB1 exOrderPending
        (some "task-1") "T0" exExpiry).db exOrderPaid (some "task-2") "T1"
        exExpiry).db.connections.length = 2 := by
  decide

/-- Claim C2 (code defect exhibit): an order in terminal status `failed` is
moved back to `paid`. `update_order_status` carries no status guard and
`finish_payment_simulation` does not check the stored status, so a `success`
simulation callback on failed order 5 overwrites its status with `paid`. -/
theorem failed_order_flips_to_paid_via_success_callback :
    (get_order exDB2 5 77).map (fun o => o.status) = some "failed" ∧
    (get_order (finish_payment_simulation exDB2 77 "success" 5 (some "task-9")
        "T1" exExpiry).db 5 77).map (fun o => o.status) = some "paid" := by
  decide

/-- Counterexample to claim C3 as stated: in the failing `_start_config_build`
run the new Connection row goes from `pending` (its status at insertion)
directly to `failed`, and `pending -> failed` is not an edge of the claimed
diagram `pending -> creating -> {active | failed}`. -/
theorem conn_pending_to_failed_outside_claimed_edges :
    build_error_status_trace exDBEmpty 77 9 exOffer "T0" exExpiry
      = (some "pending", some "failed") ∧
    claimed_conn_edge "pending" "failed" = false := by
  decide

theorem map_if_not_key {α : Type} (p : α → Bool) (g : α → α) :
    ∀ l : List α, (∀ x ∈ l, p x = false) →
      l.map (fun a => if p a then g a else a) = l := by
  intro l
  induction l with
  | nil => intro _; rfl
  | cons a t ih =>
    intro h
    have ha := h a (by simp)
    simp only [List.map_cons, ha, Bool.false_eq_true, if_false]
    rw [ih (fun x hx => h x (by simp [hx]))]

/-- Claim C3 as amended: Connection status transitions follow
`pending -> creating -> {active | failed}` **with additionally
`pending -> failed`** when the initial create-configuration request fails.
Part one: `_start_config_build` inserts exactly one new row (initial status
`pending`) and leaves it `failed` on request failure or `creating` on success,
both amended edges from `pending`; existing rows are untouched. Part two: the
poll loop either leaves a `creating` row untouched (timeout), or moves it to
`active` — only with a non-empty configuration payload delivered by a remote
status among done/ready/success — or to `failed`, both amended edges from
`creating`. -/
theorem connection_lifecycle_amended :
    (∀ (db : DB) (tg : Int) (oid : Nat) (offer : OfferR) (resp : Option String)
      (now : String) (expiry : Int → String),
      db.connections.all (fun c => decide (c.id < db.next_connection_id)) = true →
      ∃ row, (start_config_build db tg oid offer resp now expiry).db.connections
          = row :: db.connections ∧
        row.id = (start_config_build db tg oid offer resp now expiry).connection_id ∧
        row.status = (match resp with | none => "failed" | some _ => "creating") ∧
        amended_conn_edge "pending" row.status = true) ∧
    (∀ (responses : Nat → Option TaskStatusR) (interval tg : Int) (cid : Nat)
      (task : String) (db : DB) (rowC : ConnectionRow),
      get_connection db cid tg = some rowC → rowC.status = "creating" →
      ∃ row, get_connection (poll_master_task responses interval tg cid task
          db).db cid tg = some row ∧
        (row = rowC ∨
          (row.status = "active" ∧ amended_conn_edge rowC.status row.status = true ∧
            ¬(row.config_text = "") ∧
            ∃ st, (∃ a ∈ List.range' 1 40, responses a = some st) ∧
              (st.status = "done" ∨ st.status = "ready" ∨ st.status = "success") ∧
              st.config_text = some row.config_text) ∨
          (row.status = "failed" ∧
            amended_conn_edge rowC.status row.status = true))) := by
  constructor
  · intro db tg oid offer resp now expiry hfresh
    have hold : ∀ x ∈ db.connections,
        connKey db.next_connection_id tg x = false := by
      intro x hx
      have hxid : x.id < db.next_connection_id :=
        of_decide_eq_true (List.all_eq_true.mp hfresh x hx)
      have hne : (x.id == db.next_connection_id) = false :=
        beq_eq_false_iff_ne.mpr (Nat.ne_of_lt hxid)
      simp [connKey, hne]
    cases resp with
    | none =>
      refine ⟨⟨db.next_connection_id, tg, some oid, offer.server,
        offer.protocol, now, offer.speed_limits, pyIntToString offer.devices,
        offer.data_limits, "", expiry offer.months, "failed", none⟩,
        ?_, rfl, rfl, by rfl⟩
      simp only [start_config_build, create_connection, update_connection_task,
        List.map_cons]
      rw [map_if_not_key (connKey db.next_connection_id tg) _
        db.connections hold]
      simp [connKey]
    | some tid =>
      refine ⟨⟨db.next_connection_id, tg, some oid, offer.server,
        offer.protocol, now, offer.speed_limits, pyIntToString offer.devices,
        offer.data_limits, "", expiry offer.months, "creating", some tid⟩,
        ?_, rfl, rfl, by rfl⟩
      simp only [start_config_build, create_connection, update_connection_task,
        List.map_cons]
      rw [map_if_not_key (connKey db.next_connection_id tg) _
        db.connections hold]
      simp [connKey]
  · intro responses interval tg cid task db rowC hrow hcreating
    have hdef : poll_master_task responses interval tg cid task db =
        poll_master_task_go responses interval tg cid task db 0 []
          (List.range' 1 40) := rfl
    rcases poll_go_cases responses interval tg cid task (List.range' 1 40)
        db 0 [] with ⟨hdb, _⟩ | ⟨a, ha, hsucc, hdb, _⟩ | ⟨a, ha, hfail, hdb, _⟩
    · refine ⟨rowC, ?_, Or.inl rfl⟩
      rw [hdef, hdb]
      exact hrow
    · refine ⟨{ rowC with status := "active", task_id := some task, config_text := respConfig (responses a) },
        ?_, Or.inr (Or.inl ⟨rfl, ?_, ?_, ?_⟩)⟩
      · rw [hdef, hdb]
        exact get_connection_after_update db cid tg "active" (some task)
          (some (respConfig (responses a))) rowC hrow
      · rw [hcreating]
        rfl
      · exact respSuccess_config_ne_empty hsucc
      · obtain ⟨st, hst, hstat, hcfg⟩ := respSuccess_status_done hsucc
        exact ⟨st, ⟨a, ha, hst⟩, hstat, hcfg⟩
    · refine ⟨{ rowC with status := "failed", task_id := some task },
        ?_, Or.inr (Or.inr ⟨rfl, ?_⟩)⟩
      · rw [hdef, hdb]
        exact get_connection_after_update db cid tg "failed" (some task)
          none rowC hrow
      · rw [hcreating]
        rfl

/-- Witness for the amended C3 at concrete inputs: a failing build run on an
empty store inserts one `pending` row and leaves it `failed`; the poll run
whose first attempt errors and second reports `done`/`CFG-DATA` moves the
`creating` row 10 along an amended edge. -/
theorem connection_lifecycle_amended_witness :
    (∃ row, (start_config_build exDBEmpty 77 9 exOffer none "T0"
        exExpiry).db.connections = row :: exDBEmpty.connections ∧
      row.id = (start_config_build exDBEmpty 77 9 exOffer none "T0"
        exExpiry).connection_id ∧
      row.status = (match (none : Option String) with
        | none => "failed" | some _ => "creating") ∧
      amended_conn_edge "pending" row.status = true) ∧
    (∃ row, get_connection (poll_master_task exRespErrorThenDone 7 77 10 "t1"
        exDBPoll).db 10 77 = some row ∧
      (row = exConnCreating ∨
        (row.status = "active" ∧
          amended_conn_edge exConnCreating.status row.status = true ∧
          ¬(row.config_text = "") ∧
          ∃ st, (∃ a ∈ List.range' 1 40, exRespErrorThenDone a = some st) ∧
            (st.status = "done" ∨ st.status = "ready" ∨ st.status = "success") ∧
            st.config_text = some row.config_text) ∨
        (row.status = "failed" ∧
          amended_conn_edge exConnCreating.status row.status = true))) :=
  ⟨connection_lifecycle_amended.1 exDBEmpty 77 9 exOffer none "T0" exExpiry
      (by decide),
    connection_lifecycle_amended.2 exRespErrorThenDone 7 77 10 "t1" exDBPoll
      exConnCreating (by decide) (by decide)⟩

/-- The handled branches of `start_config_build_run` agree with
`start_config_build` (same store, connection id, scheduling, messages and call
count) and report no escaped exception. -/
theorem start_config_build_run_agrees (db : DB) (tg : Int) (order_id : Nat)
    (offer : OfferR) (now : String) (expiry : Int → String) :
    start_config_build_run db tg order_id offer .masterError now expiry
      = (start_config_build db tg order_id offer none now expiry, false) ∧
    ∀ tid : String,
      start_config_build_run db tg order_id offer (.ok tid) now expiry
        = (start_config_build db tg order_id offer (some tid) now expiry,
          false) := by
  exact ⟨rfl, fun tid => rfl⟩

/-- Claim C6 (code defect exhibit): a create-configuration request that fails
with a raw transport error — an httpx connect/timeout exception raised by
`client.request` itself — is not wrapped into `MasterNodeError` by
`MasterNodeClient._request`, so it does not match `except MasterNodeError` in
`_start_config_build` and escapes the handler. The Connection row that was
inserted stays in status `pending` (it is never marked `failed`), the user
receives no config-create-error notification, no polling task is scheduled,
and the single creation call was already issued — against the claim, which says
every request failure (including transport failure) leaves the Connection
`failed` with the user notified. -/
theorem transport_error_leaves_connection_pending (db : DB) (tg : Int)
    (order_id : Nat) (offer : OfferR) (now : String) (expiry : Int → String) :
    (start_config_build_run db tg order_id offer .transportError now
        expiry).2 = true ∧
    (∃ row,
      (start_config_build_run db tg order_id offer .transportError now
          expiry).1.db.connections.head? = some row ∧
      row.status = "pending" ∧ ¬(row.status = "failed") ∧
      row.id = (start_config_build_run db tg order_id offer .transportError
        now expiry).1.connection_id ∧
      (start_config_build_run db tg order_id offer .transportError now
          expiry).1.db.connections.length = db.connections.length + 1) ∧
    (start_config_build_run db tg order_id offer .transportError now
        expiry).1.msgs = [] ∧
    (start_config_build_run db tg order_id offer .transportError now
        expiry).1.pollScheduled = false ∧
    (start_config_build_run db tg order_id offer .transportError now
        expiry).1.create_calls = 1 := by
  refine ⟨rfl, ⟨⟨db.next_connection_id, tg, some order_id, offer.server,
    offer.protocol, now, offer.speed_limits, pyIntToString offer.devices,
    offer.data_limits, "", expiry offer.months, "pending", none⟩,
    rfl, rfl, by simp, rfl, rfl⟩, rfl, rfl, rfl⟩
